import Mathlib

/-!
Verification of the resilient MCP proxy core (`src/mcp_proxy/server.py`):
the upstream connection lifecycle (`connect_upstream` / `disconnect_upstream` /
`_reconnect_upstream`), the bounded retry dispatcher (`_execute_with_reconnect`),
the session-error classifier (`_should_reconnect`), the token-budgeted
summarization pipeline (`_summarize_output`) and the `call_tool` handler.

The embedding is sequential (one logical request at a time; the
`asyncio.Lock` in `_reconnect_upstream` is uncontended in that setting).
External collaborators are modelled as injected behaviours:

* the tiktoken encoder is a `Tokenizer` whose `encode` may fail (`none`
  models a raised exception, mirroring the `try/except` around it);
* the OpenAI chat backend is a function from the request to either an
  error (any exception raised while creating or iterating the stream) or
  the list of streamed delta contents;
* `ClientSession.__aexit__` / transport `__aexit__` outcomes are carried by
  the session/transport values themselves;
* `connect_upstream` outcomes are an injected function indexed by how many
  reconnect cycles have already run.

Progress notifications carry no information back into the pipeline: every
`send_progress_notification` in the source is wrapped in `try/except` whose
result is discarded, so the model discards the sink's outcome as well.
-/

deriving instance DecidableEq for Except

namespace McpProxy

/-- Python exception classes distinguished by `_execute_with_reconnect`:
`McpError` (with `error.code` and optional `error.message`), `httpx.HTTPError`,
`RuntimeError`, and any other exception. -/
inductive PyErr where
  | mcp (code : Int) (message : Option String)
  | http (message : String)
  | runtime (message : String)
  | other (message : String)
deriving DecidableEq

/-- An upstream `ClientSession` handle.  `teardown` is the outcome of its
`__aexit__` call (`.error e` models an exception raised during teardown). -/
structure Session where
  id : Nat
  teardown : Except PyErr Unit
deriving DecidableEq

/-- The `streamablehttp_client` transport context; `teardown` is the outcome
of its `__aexit__` call. -/
structure TransportCtx where
  teardown : Except PyErr Unit
deriving DecidableEq

/-- The mutable connection fields of `MCPProxyServer`:
`upstream_session` and `upstream_context`. -/
structure ConnState where
  session : Option Session
  context : Option TransportCtx
deriving DecidableEq

/-- Whether `pat` is a prefix of `hay` (used for substring search). -/
def charsStartWith : List Char → List Char → Bool
  | [], _ => true
  | _ :: _, [] => false
  | p :: ps, h :: hs => p == h && charsStartWith ps hs

/-- Whether `pat` occurs as a contiguous run inside `hay`
(Python's `pat in hay` on strings). -/
def charsContain : List Char → List Char → Bool
  | [], pat => charsStartWith pat []
  | h :: t, pat => charsStartWith pat (h :: t) || charsContain t pat

/-- Python's `pat in hay` substring test. -/
def strContains (hay pat : String) : Bool :=
  charsContain hay.data pat.data

/-- Python's `str.lower()`, applied characterwise (the messages classified
here are ASCII). -/
def strToLower (s : String) : String :=
  String.mk (s.data.map Char.toLower)

/-- Python's `a or b` for an optional string: `b` when `a` is `None` or empty. -/
def pyOr (a : Option String) (b : String) : String :=
  match a with
  | some s => if s = "" then b else s
  | none => b

/-- `mcp.types.CONNECTION_CLOSED`. -/
def CONNECTION_CLOSED : Int := -32000

/-- `MCPProxyServer._should_reconnect`: the error signals a dead session when
it carries the connection-closed code or its lowercased message contains
"session terminated" or "connection closed". -/
def shouldReconnect (code : Int) (message : Option String) : Bool :=
  if code = CONNECTION_CLOSED then
    true
  else
    let m := strToLower (message.getD "")
    strContains m "session terminated" || strContains m "connection closed"

/-- Modelled from the spec wording of the error classification: a
dead-session signal "carries a recognized connection-closed status code, or
its message matches (case-insensitive) 'session terminated' or
'connection closed'". -/
def specDeadSessionSignal (code : Int) (message : Option String) : Prop :=
  code = CONNECTION_CLOSED ∨
    strContains (strToLower (message.getD "")) "session terminated" = true ∨
    strContains (strToLower (message.getD "")) "connection closed" = true

/-- `MCPProxyServer.disconnect_upstream`.  Returns the connection state after
the call together with the exception it raised, if any.  Field assignments
that the source skips when an earlier `await ... __aexit__` raises are
skipped here as well. -/
def disconnectUpstream (st : ConnState) : ConnState × Option PyErr :=
  match st.session with
  | some s =>
    match s.teardown with
    | .error e => (st, some e)
    | .ok _ =>
      match st.context with
      | some c =>
        match c.teardown with
        | .error e => (⟨none, st.context⟩, some e)
        | .ok _ => (⟨none, none⟩, none)
      | none => (⟨none, none⟩, none)
  | none =>
    match st.context with
    | some c =>
      match c.teardown with
      | .error e => (st, some e)
      | .ok _ => (⟨none, none⟩, none)
    | none => (st, none)

/-- The behaviour of `connect_upstream`, indexed by how many reconnect
cycles have already run: the connection state its field assignments produce,
together with the exception it raised, if any. -/
def ConnectFun : Type := Nat → ConnState × Option PyErr

/-- `MCPProxyServer._reconnect_upstream`.  The third component counts actual
reconnect cycles (entries into the disconnect-then-connect branch); the
early return when a session exists and `force` is false performs none. -/
def reconnectUpstream (connect : ConnectFun) (st : ConnState) (cyc : Nat)
    (_reason : String) (force : Bool) : ConnState × Option PyErr × Nat :=
  if st.session.isSome && !force then
    (st, none, cyc)
  else
    match disconnectUpstream st with
    | (st₁, some e) => (st₁, some e, cyc + 1)
    | (_, none) =>
      match connect cyc with
      | (st₂, e?) => (st₂, e?, cyc + 1)

/-- Result of a dispatcher run: the value returned or exception propagated,
the number of operation invocations performed, the number of reconnect
cycles triggered, and the final connection state. -/
structure DispatchOutcome (T : Type) where
  result : Except PyErr T
  attempts : Nat
  cycles : Nat
  finalConn : ConnState
deriving DecidableEq

/-- Environment of a dispatcher run: the `connect_upstream` behaviour and the
outcome of the k-th invocation of the wrapped operation on a given session. -/
structure DispatchEnv (T : Type) where
  connect : ConnectFun
  op : Nat → Session → Except PyErr T

/-- Outcome of the session-ensuring prelude of one loop iteration of
`_execute_with_reconnect` (its lines 161-168). -/
inductive EnsureStep (T : Type) where
  | done (o : DispatchOutcome T)
  | cont (st : ConnState) (cyc : Nat)
  | ready (st : ConnState) (s : Session) (cyc : Nat)

/-- Lines 161-168 of `_execute_with_reconnect`: if no session exists,
reconnect (non-forced) and re-read the handle; `cont` is the `continue`
taken when the handle is still absent. -/
def ensureSession {T : Type} (connect : ConnectFun) (st : ConnState)
    (inv cyc : Nat) : EnsureStep T :=
  match st.session with
  | some s => .ready st s cyc
  | none =>
    match reconnectUpstream connect st cyc "session missing" false with
    | (st', some e, cyc') => .done ⟨.error e, inv, cyc', st'⟩
    | (st', none, cyc') =>
      match st'.session with
      | some s => .ready st' s cyc'
      | none => .cont st' cyc'

/-- The `for attempt in range(2)` loop of `_execute_with_reconnect`, over the
list of remaining attempt indices.  `inv` counts operation invocations and
`cyc` counts reconnect cycles so far. -/
def execLoop {T : Type} (env : DispatchEnv T) (opName : String) :
    List Nat → ConnState → Nat → Nat → DispatchOutcome T
  | [], st, inv, cyc =>
    ⟨.error (.runtime ("Failed to execute " ++ opName ++ " even after reconnect")),
      inv, cyc, st⟩
  | attempt :: rest, st, inv, cyc =>
    match ensureSession env.connect st inv cyc with
    | .done o => o
    | .cont st' cyc' => execLoop env opName rest st' inv cyc'
    | .ready st' s cyc' =>
      match env.op inv s with
      | .ok v => ⟨.ok v, inv + 1, cyc', st'⟩
      | .error (.mcp code msg) =>
        if !shouldReconnect code msg || attempt == 1 then
          ⟨.error (.mcp code msg), inv + 1, cyc', st'⟩
        else
          match reconnectUpstream env.connect st' cyc' (pyOr msg opName) true with
          | (st'', some e, cyc'') => ⟨.error e, inv + 1, cyc'', st''⟩
          | (st'', none, cyc'') => execLoop env opName rest st'' (inv + 1) cyc''
      | .error (.http m) =>
        if attempt == 1 then
          ⟨.error (.http m), inv + 1, cyc', st'⟩
        else
          match reconnectUpstream env.connect st' cyc' "http error" true with
          | (st'', some e, cyc'') => ⟨.error e, inv + 1, cyc'', st''⟩
          | (st'', none, cyc'') => execLoop env opName rest st'' (inv + 1) cyc''
      | .error e => ⟨.error e, inv + 1, cyc', st'⟩

/-- `MCPProxyServer._execute_with_reconnect`. -/
def executeWithReconnect {T : Type} (env : DispatchEnv T) (opName : String)
    (st : ConnState) : DispatchOutcome T :=
  execLoop env opName [0, 1] st 0 0

/-- One element of `CallToolResult.content`: `TextContent`, `ImageContent`
or `EmbeddedResource`. -/
inductive ContentItem where
  | text (text : String)
  | image (data : String) (mimeType : String)
  | embeddedResource (resource : String)
deriving DecidableEq

/-- `mcp.types.CallToolResult` as used by the proxy (only `content` is read). -/
structure CallToolResult where
  content : List ContentItem
deriving DecidableEq

/-- A per-tool compaction rule: the `dict` stored in `tool_rules`, with
`none` fields for absent keys (the source reads every field through
`dict.get` with a default). -/
structure ToolRule where
  enabled? : Option Bool
  maxTokens? : Option Nat
  preservation? : Option String
deriving DecidableEq

/-- `rule.get("enabled", False)`. -/
def ToolRule.enabledValue (r : ToolRule) : Bool := r.enabled?.getD false

/-- `rule.get("max_tokens", 8000)`. -/
def ToolRule.maxTokensValue (r : ToolRule) : Nat := r.maxTokens?.getD 8000

/-- `rule.get("preservation_instruction", "")`. -/
def ToolRule.preservationValue (r : ToolRule) : String := r.preservation?.getD ""

/-- `self.tool_rules.get(name, {})`: the empty rule dict. -/
def emptyRule : ToolRule := ⟨none, none, none⟩

/-- The tiktoken encoder: `encode` returns `none` when it raises, `decode`
maps a token list back to text. -/
structure Tokenizer where
  encode : String → Option (List Nat)
  decode : List Nat → String

/-- Lines 213-221 of `_summarize_output`: token estimation.  The exact count
when a tokenizer is available and `encode` succeeds; the character-count
heuristic `len(output_str) // 2` otherwise. -/
def estimateTokens (tok : Option Tokenizer) (s : String) : Nat :=
  match tok with
  | some t =>
    match t.encode s with
    | some ts => ts.length
    | none => s.length / 2
  | none => s.length / 2

/-- The truncation marker appended by the clipping step. -/
def truncationNotice : String := "\n\n[... output truncated due to size ...]"

/-- The hard input ceiling `max_input_tokens = 128000`. -/
def maxInputTokens : Nat := 128000

/-- Lines 238-253 of `_summarize_output`: clip the input when the estimate
exceeds the ceiling.  The renewed `tokenizer.encode` call on this path is
not guarded by `try/except` in the source, so its failure propagates. -/
def clipStage (tok : Option Tokenizer) (estimated : Nat) (s : String) :
    Except PyErr String :=
  if estimated > maxInputTokens then
    match tok with
    | some t =>
      match t.encode s with
      | some ts => .ok (t.decode (ts.take maxInputTokens) ++ truncationNotice)
      | none => .error (.other "tokenizer encode failed")
    | none => .ok (String.mk (s.data.take (maxInputTokens * 2)) ++ truncationNotice)
  else
    .ok s

/-- The chat-completions request the proxy sends (model, the two messages,
and the max-output-token hint). -/
structure ChatRequest where
  model : String
  system : String
  user : String
  maxTokens : Nat

/-- The LLM backend: either raises (while creating or iterating the stream)
or yields the streamed delta contents, `none` standing for a chunk with no
choices or no content. -/
def Backend : Type := ChatRequest → Except PyErr (List (Option String))

/-- A request context able to receive progress notifications
(`context and context.session` truthy).  `send` is the outcome of a
notification delivery; the source discards it inside `try/except`. -/
structure ProgressCtx where
  send : Except PyErr Unit

/-- The system message of the summarization prompt. -/
def systemPrompt : String := "Summarize tool outputs preserving key information."

/-- The user message of the summarization prompt (the f-string at
lines 269-279). -/
def mkUserPrompt (maxTokens : Nat) (toolName preservation text : String) : String :=
  "Summarize this tool output to fit within " ++ toString maxTokens ++
    " tokens.\n\nTool: " ++ toolName ++ "\n\nPreservation Requirements:\n" ++
    preservation ++ "\n\nOutput to summarize:\n" ++ text ++
    "\n\nProvide concise summary:"

/-- The loop guard `if chunk.choices and chunk.choices[0].delta.content`:
keep only chunks carrying a non-empty delta content. -/
def chunkText (c : Option String) : Option String :=
  match c with
  | some s => if s = "" then none else some s
  | none => none

/-- Lines 206-211 of `_summarize_output`: collect the `TextContent` texts. -/
def textParts (content : List ContentItem) : List String :=
  content.filterMap fun c =>
    match c with
    | .text s => some s
    | _ => none

/-- `"\n".join(text_parts)`. -/
def joinedText (res : CallToolResult) : String :=
  String.intercalate "\n" (textParts res.content)

/-- Result of a `_summarize_output` run: the returned string or propagated
exception, how many backend calls were made, and the (possibly clipped)
text embedded in the prompt of the backend call, when one happened. -/
structure SummarizeResult where
  result : Except PyErr String
  backendCalls : Nat
  sentInput : Option String
deriving DecidableEq

/-- `MCPProxyServer._summarize_output`.  Progress notifications are
effect-free for the returned value (each send is wrapped in `try/except`
whose result the source discards), so the context parameter is unused. -/
def summarizeOutput (tok : Option Tokenizer) (llm : Option Backend)
    (llmModel toolName : String) (toolResult : CallToolResult)
    (rule : ToolRule) (_ctx : Option ProgressCtx) : SummarizeResult :=
  let maxTokens := rule.maxTokensValue
  let outputStr := joinedText toolResult
  let estimated := estimateTokens tok outputStr
  if estimated ≤ maxTokens then
    ⟨.ok outputStr, 0, none⟩
  else
    match llm with
    | none => ⟨.ok outputStr, 0, none⟩
    | some backend =>
      match clipStage tok estimated outputStr with
      | .error e => ⟨.error e, 0, none⟩
      | .ok clipped =>
        match backend ⟨llmModel, systemPrompt,
            mkUserPrompt maxTokens toolName rule.preservationValue clipped,
            maxTokens⟩ with
        | .error _ => ⟨.ok clipped, 1, some clipped⟩
        | .ok chunks =>
          let joined := String.join (chunks.filterMap chunkText)
          let summary := if joined = "" then clipped else joined
          ⟨.ok summary.trim, 1, some clipped⟩

/-- Result of a `call_tool` handler run, with the dispatcher and
summarization instrumentation carried through. -/
structure CallOutcome where
  result : Except PyErr (List ContentItem)
  attempts : Nat
  cycles : Nat
  backendCalls : Nat
  sentInput : Option String
deriving DecidableEq

/-- The `call_tool` handler (lines 81-108): guard on a live session, dispatch
the upstream call, then summarize when the tool's rule is enabled and an LLM
client is configured, else return the upstream content as-is. -/
def callTool (tok : Option Tokenizer) (llm : Option Backend)
    (llmModel : String) (rules : List (String × ToolRule))
    (env : DispatchEnv CallToolResult) (st : ConnState) (name : String)
    (ctx : Option ProgressCtx) : CallOutcome :=
  match st.session with
  | none => ⟨.error (.runtime "Not connected to upstream"), 0, 0, 0, none⟩
  | some _ =>
    let d := executeWithReconnect env ("call_tool:" ++ name) st
    match d.result with
    | .error e => ⟨.error e, d.attempts, d.cycles, 0, none⟩
    | .ok res =>
      let rule := (rules.lookup name).getD emptyRule
      if rule.enabledValue && llm.isSome then
        let sres := summarizeOutput tok llm llmModel name res rule ctx
        match sres.result with
        | .ok s =>
          ⟨.ok [ContentItem.text s], d.attempts, d.cycles,
            sres.backendCalls, sres.sentInput⟩
        | .error e =>
          ⟨.error e, d.attempts, d.cycles, sres.backendCalls, sres.sentInput⟩
      else
        ⟨.ok res.content, d.attempts, d.cycles, 0, none⟩

/-! ### Helper lemmas -/

/-- The within-budget branch of `_summarize_output` (lines 228-231): the
concatenated text is returned untouched and no backend call is made. -/
theorem summarizeWithinBudget (tok : Option Tokenizer) (llm : Option Backend)
    (llmModel toolName : String) (res : CallToolResult) (rule : ToolRule)
    (ctx : Option ProgressCtx)
    (h : estimateTokens tok (joinedText res) ≤ rule.maxTokensValue) :
    summarizeOutput tok llm llmModel toolName res rule ctx =
      ⟨.ok (joinedText res), 0, none⟩ := by
  unfold summarizeOutput
  simp [h]

/-- Reconnecting runs at most one cycle, and never forgets one already run. -/
theorem reconnectCycleBound (connect : ConnectFun) (st : ConnState) (cyc : Nat)
    (r : String) (force : Bool) :
    cyc ≤ (reconnectUpstream connect st cyc r force).2.2 ∧
    (reconnectUpstream connect st cyc r force).2.2 ≤ cyc + 1 := by
  unfold reconnectUpstream
  split
  · simp
  · rcases hd : disconnectUpstream st with ⟨st₁, _ | e⟩
    · rcases hc : connect cyc with ⟨st₂, e₂⟩
      simp
    · simp

/-- When every successful `connect_upstream` leaves a session installed, a
reconnect that returns without raising leaves a session installed, and runs
at most one cycle. -/
theorem reconnectSuccessState (connect : ConnectFun) (st st' : ConnState)
    (cyc cyc' : Nat) (r : String) (force : Bool)
    (hconn : ∀ k, (connect k).2 = none → ((connect k).1).session.isSome)
    (h : reconnectUpstream connect st cyc r force = (st', none, cyc')) :
    st'.session.isSome = true ∧ cyc ≤ cyc' ∧ cyc' ≤ cyc + 1 := by
  unfold reconnectUpstream at h
  split at h
  next hcond =>
    rw [Prod.ext_iff] at h
    obtain ⟨h1, h2⟩ := h
    rw [Prod.ext_iff] at h2
    obtain ⟨-, h3⟩ := h2
    subst h1
    subst h3
    exact ⟨(Bool.and_eq_true _ _ |>.mp hcond).1, le_refl _, Nat.le_succ _⟩
  next =>
    rcases hd : disconnectUpstream st with ⟨st₁, e?⟩
    rcases e? with _ | e
    · rcases hc : connect cyc with ⟨st₂, e₂⟩
      rw [hd, hc] at h
      simp at h
      obtain ⟨h1, h2, h3⟩ := h
      subst h1
      subst h3
      have hsome := hconn cyc (by rw [hc]; exact h2)
      rw [hc] at hsome
      exact ⟨hsome, Nat.le_succ _, le_refl _⟩
    · rw [hd] at h
      simp at h

/-- The final loop iteration (`attempt = 1`) with a live session: exactly one
more operation invocation, no reconnect cycle, whatever the outcome. -/
theorem execLoopLast {T : Type} (env : DispatchEnv T) (n : String)
    (st : ConnState) (s : Session) (inv cyc : Nat) (h : st.session = some s) :
    (execLoop env n [1] st inv cyc).attempts = inv + 1 ∧
    (execLoop env n [1] st inv cyc).cycles = cyc := by
  simp only [execLoop, ensureSession, h]
  rcases hop : env.op inv s with e | v
  · rcases e with ⟨code, msg⟩ | m | m | m <;> simp [hop]
  · simp [hop]

/-- A loop iteration whose session-ensuring reconnect succeeds continues
exactly like an iteration started on the reconnected state. -/
theorem execLoopEnsureShift {T : Type} (env : DispatchEnv T) (n : String)
    (a : Nat) (rest : List Nat) (st st' : ConnState) (inv cyc cyc' : Nat)
    (hs : st.session = none)
    (hr : reconnectUpstream env.connect st cyc "session missing" false =
      (st', none, cyc'))
    (hs' : st'.session.isSome) :
    execLoop env n (a :: rest) st inv cyc = execLoop env n (a :: rest) st' inv cyc' := by
  rcases hsome : st'.session with _ | s
  · rw [hsome] at hs'
    simp at hs'
  · conv_lhs => simp only [execLoop, ensureSession, hs, hr, hsome]
    conv_rhs => simp only [execLoop, ensureSession, hsome]

/-- One-step unfolding of the loop when a session is already live; the
recursive call on the remaining attempts stays folded. -/
theorem execLoopConsLive {T : Type} (env : DispatchEnv T) (n : String)
    (attempt : Nat) (rest : List Nat) (st : ConnState) (s : Session)
    (inv cyc : Nat) (hs : st.session = some s) :
    execLoop env n (attempt :: rest) st inv cyc =
      match env.op inv s with
      | .ok v => ⟨.ok v, inv + 1, cyc, st⟩
      | .error (.mcp code msg) =>
        if !shouldReconnect code msg || attempt == 1 then
          ⟨.error (.mcp code msg), inv + 1, cyc, st⟩
        else
          match reconnectUpstream env.connect st cyc (pyOr msg n) true with
          | (st'', some e, cyc'') => ⟨.error e, inv + 1, cyc'', st''⟩
          | (st'', none, cyc'') => execLoop env n rest st'' (inv + 1) cyc''
      | .error (.http m) =>
        if attempt == 1 then
          ⟨.error (.http m), inv + 1, cyc, st⟩
        else
          match reconnectUpstream env.connect st cyc "http error" true with
          | (st'', some e, cyc'') => ⟨.error e, inv + 1, cyc'', st''⟩
          | (st'', none, cyc'') => execLoop env n rest st'' (inv + 1) cyc''
      | .error e => ⟨.error e, inv + 1, cyc, st⟩ := by
  simp only [execLoop, ensureSession, hs]

/-- Starting the two-attempt loop on a live session performs at most two
invocations and at most one further reconnect cycle. -/
theorem execLoopLiveBound {T : Type} (env : DispatchEnv T) (n : String)
    (st : ConnState) (s : Session) (cyc : Nat)
    (hconn : ∀ k, (env.connect k).2 = none → ((env.connect k).1).session.isSome)
    (hs : st.session = some s) :
    (execLoop env n [0, 1] st 0 cyc).attempts ≤ 2 ∧
    (execLoop env n [0, 1] st 0 cyc).cycles ≤ cyc + 1 := by
  rw [execLoopConsLive env n 0 [1] st s 0 cyc hs]
  rcases hop : env.op 0 s with e | v
  · rcases e with ⟨code, msg⟩ | m | m | m
    · by_cases hsr : shouldReconnect code msg
      · rcases hr : reconnectUpstream env.connect st cyc (pyOr msg n) true
          with ⟨st'', e?, cyc''⟩
        have hb := reconnectCycleBound env.connect st cyc (pyOr msg n) true
        rw [hr] at hb
        simp only [] at hb
        rcases e? with _ | e2
        · have hst := reconnectSuccessState env.connect st st'' cyc cyc''
            (pyOr msg n) true hconn hr
          obtain ⟨-, hst1, hst2⟩ := hst
          rcases hsome : st''.session with _ | s''
          · have hst' := reconnectSuccessState env.connect st st'' cyc cyc''
              (pyOr msg n) true hconn hr
            rw [hsome] at hst'
            simp at hst'
          · have hl := execLoopLast env n st'' s'' 1 cyc'' hsome
            simp [hop, hsr, hr, hl.1, hl.2]
            omega
        · obtain ⟨hb1, hb2⟩ := hb
          simp [hop, hsr, hr]
          omega
      · simp [hop, hsr]
    · rcases hr : reconnectUpstream env.connect st cyc "http error" true
        with ⟨st'', e?, cyc''⟩
      have hb := reconnectCycleBound env.connect st cyc "http error" true
      rw [hr] at hb
      rcases e? with _ | e2
      · have hst := reconnectSuccessState env.connect st st'' cyc cyc''
          "http error" true hconn hr
        obtain ⟨-, hst1, hst2⟩ := hst
        rcases hsome : st''.session with _ | s''
        · have hst' := reconnectSuccessState env.connect st st'' cyc cyc''
            "http error" true hconn hr
          rw [hsome] at hst'
          simp at hst'
        · have hl := execLoopLast env n st'' s'' 1 cyc'' hsome
          simp [hop, hr, hl.1, hl.2]
          omega
      · obtain ⟨hb1, hb2⟩ := hb
        simp only [] at hb1 hb2
        simp [hop, hr]
        omega
    · simp [hop]
    · simp [hop]
  · simp [hop]

/-- The full dispatcher run bound: at most two invocations and at most two
reconnect cycles, provided a `connect_upstream` that returns without raising
always leaves a session installed (as the source's does). -/
theorem dispatchBounded {T : Type} (env : DispatchEnv T) (n : String)
    (st : ConnState)
    (hconn : ∀ k, (env.connect k).2 = none → ((env.connect k).1).session.isSome) :
    (executeWithReconnect env n st).attempts ≤ 2 ∧
    (executeWithReconnect env n st).cycles ≤ 2 := by
  unfold executeWithReconnect
  rcases hs : st.session with _ | s
  · rcases hr : reconnectUpstream env.connect st 0 "session missing" false
      with ⟨st', e?, cyc'⟩
    have hb := reconnectCycleBound env.connect st 0 "session missing" false
    rw [hr] at hb
    simp only [] at hb
    rcases e? with _ | e
    · have hst := reconnectSuccessState env.connect st st' 0 cyc'
        "session missing" false hconn hr
      obtain ⟨hsome, -, h1⟩ := hst
      rw [execLoopEnsureShift env n 0 [1] st st' 0 0 cyc' hs hr hsome]
      rcases hsome2 : st'.session with _ | s'
      · rw [hsome2] at hsome
        simp at hsome
      · have hlive := execLoopLiveBound env n st' s' cyc' hconn hsome2
        omega
    · simp only [execLoop, ensureSession, hs, hr]
      simp
      omega
  · have hlive := execLoopLiveBound env n st s 0 hconn hs
    omega

/-- When the estimate exceeds the budget, the clipping step succeeds and the
backend raises, `_summarize_output` swallows the exception and returns the
(possibly clipped) text after one backend call. -/
theorem summarizeBackendFailure (tok : Option Tokenizer)
    (backend : Backend) (llmModel toolName : String) (res : CallToolResult)
    (rule : ToolRule) (ctx : Option ProgressCtx) (clipped : String) (e : PyErr)
    (hover : rule.maxTokensValue < estimateTokens tok (joinedText res))
    (hclip : clipStage tok (estimateTokens tok (joinedText res)) (joinedText res) =
      .ok clipped)
    (hfail : backend ⟨llmModel, systemPrompt,
      mkUserPrompt rule.maxTokensValue toolName rule.preservationValue clipped,
      rule.maxTokensValue⟩ = .error e) :
    summarizeOutput tok (some backend) llmModel toolName res rule ctx =
      ⟨.ok clipped, 1, some clipped⟩ := by
  have h1 : ¬ (estimateTokens tok (joinedText res) ≤ rule.maxTokensValue) :=
    Nat.not_le.mpr hover
  unfold summarizeOutput
  simp [h1, hclip, hfail]

/-! ### Concrete behaviours used by witnesses and counterexamples -/

/-- A backend that raises on every call. -/
def failingBackend : Backend := fun _ => .error (.other "backend down")

/-- A small upstream result mixing text and non-text segments. -/
def witRes : CallToolResult :=
  ⟨[ContentItem.text "hello", ContentItem.image "zz" "image/png"]⟩

/-- A session whose teardown succeeds. -/
def okSession (n : Nat) : Session := ⟨n, .ok ()⟩

/-- A session whose `__aexit__` raises. -/
def badSession : Session := ⟨0, .error (.other "teardown failed")⟩

/-! ### Claims -/

/-- Claim C1: for every tool result whose concatenated text has an estimated
token count at most the rule's `max_tokens`, `_summarize_output` returns that
concatenated text unchanged and makes no call to the LLM backend. -/
theorem claim1_summarize_within_budget (tok : Option Tokenizer)
    (llm : Option Backend) (llmModel toolName : String) (res : CallToolResult)
    (rule : ToolRule) (ctx : Option ProgressCtx)
    (h : estimateTokens tok (joinedText res) ≤ rule.maxTokensValue) :
    summarizeOutput tok llm llmModel toolName res rule ctx =
      ⟨.ok (joinedText res), 0, none⟩ :=
  summarizeWithinBudget tok llm llmModel toolName res rule ctx h

/-- Witness for C1 at a concrete in-budget result with an LLM configured. -/
theorem claim1_witness :
    estimateTokens none (joinedText witRes) ≤ emptyRule.maxTokensValue ∧
    summarizeOutput none (some failingBackend) "m" "tool" witRes emptyRule none =
      ⟨.ok (joinedText witRes), 0, none⟩ :=
  ⟨by decide,
    claim1_summarize_within_budget none (some failingBackend) "m" "tool" witRes
      emptyRule none (by decide)⟩

/-- A connect behaviour that always succeeds, installing a fresh session. -/
def envC2 : DispatchEnv Nat :=
  ⟨fun k => (⟨some (okSession (k + 1)), none⟩, none),
   fun inv _ => if inv = 0 then .error (.mcp CONNECTION_CLOSED none) else .ok 42⟩

/-- An environment whose operation always fails with a non-retriable
protocol error. -/
def envC4 : DispatchEnv Nat :=
  ⟨fun k => (⟨some (okSession (k + 1)), none⟩, none),
   fun _ _ => .error (.mcp (-32602) (some "Invalid params"))⟩

/-- Counterexample to C2 as stated: a `list_tools` dispatch that starts with
no session installed runs one reconnect cycle in the session-ensuring
prelude and a second, forced one after the first invocation fails with a
connection-closed error — two cycles for one logical operation. -/
theorem claim2_counterexample :
    (executeWithReconnect envC2 "list_tools" ⟨none, none⟩).cycles = 2 ∧
    ¬ ((executeWithReconnect envC2 "list_tools" ⟨none, none⟩).cycles ≤ 1) := by
  constructor
  · rfl
  · decide

/-- Claim C2 (amended): the dispatcher performs at most 2 attempts to invoke
the operation and triggers at most 2 reconnect cycles (one in the
session-ensuring prelude when no session exists, one forced after a
qualifying failure) before returning a result or propagating an error. -/
theorem claim2_bounded_retry {T : Type} (env : DispatchEnv T) (n : String)
    (st : ConnState)
    (hconn : ∀ k, (env.connect k).2 = none → ((env.connect k).1).session.isSome) :
    (executeWithReconnect env n st).attempts ≤ 2 ∧
    (executeWithReconnect env n st).cycles ≤ 2 :=
  dispatchBounded env n st hconn

/-- Witness for C2 at the concrete two-cycle environment. -/
theorem claim2_witness :
    (executeWithReconnect envC2 "list_tools" ⟨none, none⟩).attempts ≤ 2 ∧
    (executeWithReconnect envC2 "list_tools" ⟨none, none⟩).cycles ≤ 2 :=
  claim2_bounded_retry envC2 "list_tools" ⟨none, none⟩
    (by intro k h; simp [envC2, okSession])

/-- Claim C4: a protocol-level error triggers reconnect-and-retry exactly
when the classifier recognises it (connection-closed status code, or a
message containing, case-insensitively, "session terminated" or
"connection closed"); every other protocol-level error propagates on its
first occurrence with no reconnect cycle and no retry. -/
theorem claim4_error_classification :
    (∀ code msg, shouldReconnect code msg = true ↔ specDeadSessionSignal code msg) ∧
    (∀ (T : Type) (env : DispatchEnv T) (n : String) (s : Session)
      (c : Option TransportCtx) (code : Int) (msg : Option String),
      env.op 0 s = .error (.mcp code msg) → shouldReconnect code msg = false →
      executeWithReconnect env n ⟨some s, c⟩ =
        ⟨.error (.mcp code msg), 1, 0, ⟨some s, c⟩⟩) ∧
    (∀ (T : Type) (env : DispatchEnv T) (n : String) (s : Session)
      (code : Int) (msg : Option String) (st₂ : ConnState) (s₂ : Session),
      env.op 0 s = .error (.mcp code msg) → shouldReconnect code msg = true →
      s.teardown = .ok () → env.connect 0 = (st₂, none) → st₂.session = some s₂ →
      (executeWithReconnect env n ⟨some s, none⟩).cycles = 1 ∧
      (executeWithReconnect env n ⟨some s, none⟩).attempts = 2) := by
  refine ⟨?_, ?_, ?_⟩
  · intro code msg
    unfold shouldReconnect specDeadSessionSignal
    split
    next h => simp [h]
    next h => simp [h, Bool.or_eq_true]
  · intro T env n s c code msg hop hsr
    unfold executeWithReconnect
    rw [execLoopConsLive env n 0 [1] ⟨some s, c⟩ s 0 0 rfl]
    simp [hop, hsr]
  · intro T env n s code msg st₂ s₂ hop hsr htd hc hs₂
    unfold executeWithReconnect
    rw [execLoopConsLive env n 0 [1] ⟨some s, none⟩ s 0 0 rfl]
    have hrec : reconnectUpstream env.connect ⟨some s, none⟩ 0 (pyOr msg n)
        true = (st₂, none, 1) := by
      unfold reconnectUpstream disconnectUpstream
      simp [htd, hc]
    have hl := execLoopLast env n st₂ s₂ 1 1 hs₂
    simp [hop, hsr, hrec, hl.1, hl.2]

/-- Witness for C4: the classifier instances, a non-retriable error
propagating on first occurrence, and a connection-closed error driving one
reconnect and one retry. -/
theorem claim4_witness :
    (shouldReconnect CONNECTION_CLOSED none = true ↔
      specDeadSessionSignal CONNECTION_CLOSED none) ∧
    executeWithReconnect envC4 "call_tool:x" ⟨some (okSession 3), none⟩ =
      ⟨.error (.mcp (-32602) (some "Invalid params")), 1, 0,
        ⟨some (okSession 3), none⟩⟩ ∧
    (executeWithReconnect envC2 "probe" ⟨some (okSession 3), none⟩).cycles = 1 ∧
    (executeWithReconnect envC2 "probe" ⟨some (okSession 3), none⟩).attempts = 2 := by
  refine ⟨claim4_error_classification.1 CONNECTION_CLOSED none, ?_, ?_⟩
  · exact claim4_error_classification.2.1 Nat envC4 "call_tool:x" (okSession 3)
      none (-32602) (some "Invalid params") rfl (by decide)
  · exact claim4_error_classification.2.2 Nat envC2 "probe" (okSession 3)
      CONNECTION_CLOSED none ⟨some (okSession 1), none⟩ (okSession 1)
      rfl (by decide) rfl rfl rfl

/-- A tokenizer that maps every text to 130000 tokens and decodes every
token list to `"D"`; it drives the input estimate over the clipping
ceiling without large inputs. -/
def tokC3 : Tokenizer := ⟨fun _ => some (List.replicate 130000 0), fun _ => "D"⟩

/-- A one-segment result whose text is `"abc"`. -/
def resC3 : CallToolResult := ⟨[ContentItem.text "abc"]⟩

/-- Claim C3 (amended): every exception raised during the progress-emission,
backend-invocation and stream-accumulation steps is caught, and
`_summarize_output` returns the pre-summarization text as possibly clipped —
the clipped text, not the original, when clipping occurred (see
`claim3_counterexample`); an exception raised by the renewed tokenizer
`encode` call inside the clipping step itself is not caught. -/
theorem claim3_backend_failure_falls_back (tok : Option Tokenizer)
    (backend : Backend) (llmModel toolName : String) (res : CallToolResult)
    (rule : ToolRule) (ctx : Option ProgressCtx) (clipped : String) (e : PyErr)
    (hover : rule.maxTokensValue < estimateTokens tok (joinedText res))
    (hclip : clipStage tok (estimateTokens tok (joinedText res)) (joinedText res) =
      .ok clipped)
    (hfail : backend ⟨llmModel, systemPrompt,
      mkUserPrompt rule.maxTokensValue toolName rule.preservationValue clipped,
      rule.maxTokensValue⟩ = .error e) :
    summarizeOutput tok (some backend) llmModel toolName res rule ctx =
      ⟨.ok clipped, 1, some clipped⟩ :=
  summarizeBackendFailure tok backend llmModel toolName res rule ctx clipped e
    hover hclip hfail

/-- Witness for C3 at a concrete over-budget result whose backend raises:
the joined text comes back unchanged (no clipping was needed here). -/
theorem claim3_witness :
    summarizeOutput none (some failingBackend) "m" "tool" witRes
        ⟨some true, some 1, none⟩ none =
      ⟨.ok (joinedText witRes), 1, some (joinedText witRes)⟩ :=
  claim3_backend_failure_falls_back none failingBackend "m" "tool" witRes
    ⟨some true, some 1, none⟩ none (joinedText witRes) (.other "backend down")
    (by decide) (by decide) rfl

/-- Counterexample to C3 as stated: when the input was clipped and the
backend then raises, `_summarize_output` returns the clipped text, not the
original pre-summarization text. -/
theorem claim3_counterexample :
    (summarizeOutput (some tokC3) (some failingBackend) "m" "tool" resC3
        ⟨some true, none, none⟩ none).result = .ok ("D" ++ truncationNotice) ∧
    "D" ++ truncationNotice ≠ joinedText resC3 := by
  have hest : estimateTokens (some tokC3) (joinedText resC3) = 130000 := by
    show (List.replicate 130000 (0 : Nat)).length = 130000
    exact List.length_replicate 130000 0
  have hover : (⟨some true, none, none⟩ : ToolRule).maxTokensValue <
      estimateTokens (some tokC3) (joinedText resC3) := by
    rw [hest]
    norm_num [ToolRule.maxTokensValue]
  have hclip : clipStage (some tokC3) (estimateTokens (some tokC3) (joinedText resC3))
      (joinedText resC3) = .ok ("D" ++ truncationNotice) := by
    rw [hest]
    unfold clipStage
    rw [if_pos (by norm_num [maxInputTokens])]
    rfl
  have h := summarizeBackendFailure (some tokC3) failingBackend "m" "tool" resC3
    ⟨some true, none, none⟩ none ("D" ++ truncationNotice) (.other "backend down")
    hover hclip rfl
  constructor
  · rw [h]
  · decide

/-- Claim C5: `_reconnect_upstream` with `force = false` is a no-op leaving
the session handle untouched and running no reconnect cycle when a session
exists, and otherwise performs the disconnect-then-connect sequence. -/
theorem claim5_reconnect_gate (connect : ConnectFun) (st : ConnState)
    (cyc : Nat) (reason : String) :
    (st.session.isSome → reconnectUpstream connect st cyc reason false = (st, none, cyc)) ∧
    (st.session = none →
      reconnectUpstream connect st cyc reason false =
        match disconnectUpstream st with
        | (st₁, some e) => (st₁, some e, cyc + 1)
        | (_, none) => ((connect cyc).1, (connect cyc).2, cyc + 1)) := by
  constructor
  · intro h
    unfold reconnectUpstream
    simp [h]
  · intro h
    unfold reconnectUpstream
    rcases hd : disconnectUpstream st with ⟨st₁, e?⟩
    rcases e? with _ | e
    · rcases hc : connect cyc with ⟨st₂, e₂⟩
      simp [h, hd, hc]
    · simp [h, hd]

/-- Witness for C5: the gate is a no-op on a live session and a full cycle on
a missing one. -/
theorem claim5_witness :
    reconnectUpstream (fun _ => (⟨some (okSession 1), none⟩, none))
        ⟨some (okSession 0), none⟩ 0 "r" false = (⟨some (okSession 0), none⟩, none, 0) ∧
    reconnectUpstream (fun _ => (⟨some (okSession 1), none⟩, none))
        ⟨none, none⟩ 0 "r" false = (⟨some (okSession 1), none⟩, none, 1) := by
  refine ⟨(claim5_reconnect_gate _ _ _ _).1 (by decide), ?_⟩
  have h := (claim5_reconnect_gate (fun _ => (⟨some (okSession 1), none⟩, none))
    ⟨none, none⟩ 0 "r").2 rfl
  simpa [disconnectUpstream] using h

/-- Claim C6 (amended): `disconnect_upstream` is a no-op when neither a
session nor a transport context exists, and is idempotent after a successful
teardown; but teardown errors propagate to the caller instead of being
swallowed (see `claim6_counterexample`). -/
theorem claim6_disconnect_idempotent :
    disconnectUpstream ⟨none, none⟩ = (⟨none, none⟩, none) ∧
    ∀ st st', disconnectUpstream st = (st', none) →
      st' = ⟨none, none⟩ ∧ disconnectUpstream st' = (st', none) := by
  refine ⟨rfl, ?_⟩
  intro st st' h
  rcases st with ⟨_ | ⟨sid, se | su⟩, _ | ⟨ce | cu⟩⟩ <;>
    simp_all [disconnectUpstream] <;> subst h <;> rfl

/-- Witness for C6 at a concrete state: tearing down a live session whose
`__aexit__` succeeds empties both handles, and a second disconnect is a
no-op. -/
theorem claim6_witness :
    disconnectUpstream ⟨some (okSession 0), some ⟨.ok ()⟩⟩ = (⟨none, none⟩, none) ∧
    disconnectUpstream ⟨none, none⟩ = (⟨none, none⟩, none) := by
  have h := claim6_disconnect_idempotent.2 ⟨some (okSession 0), some ⟨.ok ()⟩⟩
    ⟨none, none⟩ (by decide)
  exact ⟨by decide, h.2⟩

/-- Counterexample to C6 as stated: an error raised during session teardown
propagates out of `disconnect_upstream` instead of being logged and
swallowed (the source has no `try/except` around the `__aexit__` calls). -/
theorem claim6_counterexample :
    (disconnectUpstream ⟨some badSession, none⟩).2 = some (.other "teardown failed") :=
  rfl

/-- Claim C7: a tool with no entry in the rule mapping, or whose rule has
`enabled = false`, gets the raw upstream content back verbatim and no
summarization (no backend call) is attempted. -/
theorem claim7_passthrough_disabled (tok : Option Tokenizer)
    (llm : Option Backend) (llmModel : String)
    (rules : List (String × ToolRule)) (env : DispatchEnv CallToolResult)
    (st : ConnState) (name : String) (ctx : Option ProgressCtx) (s : Session)
    (res : CallToolResult)
    (hs : st.session = some s)
    (hd : (executeWithReconnect env ("call_tool:" ++ name) st).result = .ok res)
    (hr : rules.lookup name = none ∨
      ∃ r, rules.lookup name = some r ∧ r.enabledValue = false) :
    (callTool tok llm llmModel rules env st name ctx).result = .ok res.content ∧
    (callTool tok llm llmModel rules env st name ctx).backendCalls = 0 := by
  have henabled : ((rules.lookup name).getD emptyRule).enabledValue = false := by
    rcases hr with h | ⟨r, hr, he⟩
    · simp [h, emptyRule, ToolRule.enabledValue]
    · simp [hr, he]
  unfold callTool
  simp [hs, hd, henabled]

/-- Claim C8: the input text sent to the backend is clipped exactly when its
estimated token count exceeds the fixed 128000-token ceiling; clipping
appends the visible truncation notice, and — for a tokenizer whose
decode-encode round trip never grows a token list and whose estimate is
subadditive over concatenation, and likewise on the character-heuristic
fallback path — the clipped text's estimate is at most the ceiling plus the
truncation notice's estimate. -/
theorem claim8_clip_boundary (llmModel toolName : String) (res : CallToolResult)
    (rule : ToolRule) (ctx : Option ProgressCtx) (backend : Backend) :
    (∀ tok : Option Tokenizer,
      rule.maxTokensValue < estimateTokens tok (joinedText res) →
      estimateTokens tok (joinedText res) ≤ maxInputTokens →
      (summarizeOutput tok (some backend) llmModel toolName res rule ctx).sentInput =
        some (joinedText res)) ∧
    (∀ (t : Tokenizer) (ts : List Nat),
      (∀ l, ∃ l', t.encode (t.decode l) = some l' ∧ l'.length ≤ l.length) →
      (∀ a b, estimateTokens (some t) (a ++ b) ≤
        estimateTokens (some t) a + estimateTokens (some t) b) →
      t.encode (joinedText res) = some ts →
      rule.maxTokensValue < ts.length → maxInputTokens < ts.length →
      (summarizeOutput (some t) (some backend) llmModel toolName res rule ctx).sentInput =
        some (t.decode (ts.take maxInputTokens) ++ truncationNotice) ∧
      estimateTokens (some t) (t.decode (ts.take maxInputTokens) ++ truncationNotice) ≤
        maxInputTokens + estimateTokens (some t) truncationNotice) ∧
    (rule.maxTokensValue < (joinedText res).length / 2 →
      maxInputTokens < (joinedText res).length / 2 →
      (summarizeOutput none (some backend) llmModel toolName res rule ctx).sentInput =
        some (String.mk ((joinedText res).data.take (maxInputTokens * 2)) ++
          truncationNotice) ∧
      estimateTokens none
          (String.mk ((joinedText res).data.take (maxInputTokens * 2)) ++
            truncationNotice) ≤
        maxInputTokens + estimateTokens none truncationNotice) := by
  refine ⟨?_, ?_, ?_⟩
  · intro tok hover hle
    have h1 : ¬ (estimateTokens tok (joinedText res) ≤ rule.maxTokensValue) :=
      Nat.not_le.mpr hover
    have h2 : clipStage tok (estimateTokens tok (joinedText res)) (joinedText res) =
        .ok (joinedText res) := by
      unfold clipStage
      rw [if_neg (by omega)]
    unfold summarizeOutput
    simp [h1, h2]
    split <;> rfl
  · intro t ts hrt hsub henc hover hbig
    have hest : estimateTokens (some t) (joinedText res) = ts.length := by
      simp only [estimateTokens, henc]
    have h1 : ¬ (estimateTokens (some t) (joinedText res) ≤ rule.maxTokensValue) := by
      rw [hest]
      exact Nat.not_le.mpr hover
    have h2 : clipStage (some t) (estimateTokens (some t) (joinedText res))
        (joinedText res) = .ok (t.decode (ts.take maxInputTokens) ++ truncationNotice) := by
      simp only [clipStage, hest, henc]
      rw [if_pos hbig]
    constructor
    · unfold summarizeOutput
      simp [h1, h2]
      split <;> rfl
    · obtain ⟨l', hl', hlen⟩ := hrt (ts.take maxInputTokens)
      have hdec : estimateTokens (some t) (t.decode (ts.take maxInputTokens)) =
          l'.length := by
        simp only [estimateTokens, hl']
      have h3 : (ts.take maxInputTokens).length ≤ maxInputTokens := by
        rw [List.length_take]
        exact Nat.min_le_left _ _
      have h4 := hsub (t.decode (ts.take maxInputTokens)) truncationNotice
      omega
  · intro hover hbig
    have he : estimateTokens none (joinedText res) = (joinedText res).length / 2 := rfl
    have h1 : ¬ (estimateTokens none (joinedText res) ≤ rule.maxTokensValue) := by
      rw [he]
      exact Nat.not_le.mpr hover
    have h2 : clipStage none (estimateTokens none (joinedText res)) (joinedText res) =
        .ok (String.mk ((joinedText res).data.take (maxInputTokens * 2)) ++
          truncationNotice) := by
      simp only [clipStage, he]
      rw [if_pos hbig]
    constructor
    · unfold summarizeOutput
      simp [h1, h2]
      split <;> rfl
    · show (String.mk ((joinedText res).data.take (maxInputTokens * 2)) ++
          truncationNotice).length / 2 ≤ maxInputTokens + truncationNotice.length / 2
      have hX : (String.mk ((joinedText res).data.take (maxInputTokens * 2)) ++
          truncationNotice).length =
          ((joinedText res).data.take (maxInputTokens * 2)).length +
            truncationNotice.length := by
        rw [String.length_append, String.length_mk]
      have htake : ((joinedText res).data.take (maxInputTokens * 2)).length ≤
          maxInputTokens * 2 := by
        rw [List.length_take]
        exact Nat.min_le_left _ _
      have hmax : maxInputTokens = 128000 := rfl
      omega

/-- The scaling tokenizer used to witness C8: 1000 tokens per character,
decoded back at the same rate. -/
def tokScale : Tokenizer :=
  ⟨fun s => some (List.replicate (1000 * s.length) 0),
   fun l => String.mk (List.replicate (l.length / 1000) 'a')⟩

/-- A 129-character single-text result (129000 tokens under `tokScale`). -/
def resC8 : CallToolResult := ⟨[ContentItem.text (String.mk (List.replicate 129 'a'))]⟩

set_option maxRecDepth 4000 in
/-- Witness for C8: under the scaling tokenizer the 129000-token input is
clipped to the ceiling plus the notice, within the estimate bound. -/
theorem claim8_witness :
    (summarizeOutput (some tokScale) (some failingBackend) "m" "t" resC8
        emptyRule none).sentInput =
      some (tokScale.decode ((List.replicate 129000 (0 : Nat)).take maxInputTokens) ++
        truncationNotice) ∧
    estimateTokens (some tokScale)
        (tokScale.decode ((List.replicate 129000 (0 : Nat)).take maxInputTokens) ++
          truncationNotice) ≤
      maxInputTokens + estimateTokens (some tokScale) truncationNotice := by
  have hj : (joinedText resC8).length = 129 := by decide
  refine (claim8_clip_boundary "m" "t" resC8 emptyRule none failingBackend).2.1
    tokScale (List.replicate 129000 0) ?_ ?_ ?_ ?_ ?_
  · intro l
    refine ⟨List.replicate (1000 * (l.length / 1000)) 0, ?_, ?_⟩
    · show some (List.replicate
        (1000 * (String.mk (List.replicate (l.length / 1000) 'a')).length) (0 : Nat)) = _
      rw [String.length_mk, List.length_replicate]
    · rw [List.length_replicate, Nat.mul_comm]
      exact Nat.div_mul_le_self l.length 1000
  · intro a b
    show (List.replicate (1000 * (a ++ b).length) (0 : Nat)).length ≤
      (List.replicate (1000 * a.length) (0 : Nat)).length +
        (List.replicate (1000 * b.length) (0 : Nat)).length
    rw [List.length_replicate, List.length_replicate, List.length_replicate,
      String.length_append, Nat.mul_add]
  · show some (List.replicate (1000 * (joinedText resC8).length) (0 : Nat)) = _
    rw [hj]
  · rw [List.length_replicate]
    norm_num [emptyRule, ToolRule.maxTokensValue]
  · rw [List.length_replicate]
    norm_num [maxInputTokens]

/-- Claim C9: with an enabled rule and an LLM client configured, `call_tool`
returns exactly one text content element carrying `_summarize_output`'s
string, which is built from the newline-joined text segments of the
upstream result (non-text segments are dropped); when that joined text is
within budget it is returned verbatim with no backend call. -/
theorem claim9_single_text_content (tok : Option Tokenizer) (backend : Backend)
    (llmModel : String) (rules : List (String × ToolRule))
    (env : DispatchEnv CallToolResult) (st : ConnState) (name : String)
    (ctx : Option ProgressCtx) (s : Session) (res : CallToolResult) (r : ToolRule)
    (hs : st.session = some s)
    (hd : (executeWithReconnect env ("call_tool:" ++ name) st).result = .ok res)
    (hr : rules.lookup name = some r) (he : r.enabledValue = true) :
    (∀ s', (summarizeOutput tok (some backend) llmModel name res r ctx).result =
        .ok s' →
      (callTool tok (some backend) llmModel rules env st name ctx).result =
        .ok [ContentItem.text s']) ∧
    (estimateTokens tok (joinedText res) ≤ r.maxTokensValue →
      (callTool tok (some backend) llmModel rules env st name ctx).result =
        .ok [ContentItem.text (joinedText res)] ∧
      (callTool tok (some backend) llmModel rules env st name ctx).backendCalls = 0) := by
  constructor
  · intro s' hsum
    unfold callTool
    simp [hs, hd, hr, he, hsum]
  · intro hbud
    have hsum := summarizeWithinBudget tok (some backend) llmModel name res r ctx hbud
    unfold callTool
    simp [hs, hd, hr, he, hsum]

/-- An upstream environment whose call-tool operation returns the mixed
text/image result. -/
def envC9 : DispatchEnv CallToolResult :=
  ⟨fun k => (⟨some (okSession (k + 1)), none⟩, none), fun _ _ => .ok witRes⟩

/-- Witness for C9: the image segment is dropped and the single text element
carries the joined text, with no backend call. -/
theorem claim9_witness :
    (callTool none (some failingBackend) "m" [("tool", ⟨some true, none, none⟩)]
        envC9 ⟨some (okSession 0), none⟩ "tool" none).result =
      .ok [ContentItem.text (joinedText witRes)] ∧
    (callTool none (some failingBackend) "m" [("tool", ⟨some true, none, none⟩)]
        envC9 ⟨some (okSession 0), none⟩ "tool" none).backendCalls = 0 :=
  (claim9_single_text_content none failingBackend "m"
      [("tool", ⟨some true, none, none⟩)] envC9 ⟨some (okSession 0), none⟩ "tool"
      none (okSession 0) witRes ⟨some true, none, none⟩ rfl rfl rfl rfl).2
    (by decide)

/-- Witness for C7: a tool with no rule entry passes the mixed content
through verbatim, image segment included, with no backend call. -/
theorem claim7_witness :
    (callTool none (some failingBackend) "m" [] envC9 ⟨some (okSession 0), none⟩
        "tool" none).result = .ok witRes.content ∧
    (callTool none (some failingBackend) "m" [] envC9 ⟨some (okSession 0), none⟩
        "tool" none).backendCalls = 0 :=
  claim7_passthrough_disabled none (some failingBackend) "m" [] envC9
    ⟨some (okSession 0), none⟩ "tool" none (okSession 0) witRes rfl rfl
    (Or.inl rfl)

/-- Claim C10: when no upstream session exists at the moment a call-tool
request arrives, `call_tool` raises "Not connected to upstream" before
invoking the dispatcher: no operation attempt and no reconnect happens. -/
theorem claim10_not_connected_guard (tok : Option Tokenizer)
    (llm : Option Backend) (llmModel : String)
    (rules : List (String × ToolRule)) (env : DispatchEnv CallToolResult)
    (st : ConnState) (name : String) (ctx : Option ProgressCtx)
    (h : st.session = none) :
    callTool tok llm llmModel rules env st name ctx =
      ⟨.error (.runtime "Not connected to upstream"), 0, 0, 0, none⟩ := by
  unfold callTool
  simp [h]

/-- Witness for C10 at a concrete disconnected state. -/
theorem claim10_witness :
    callTool none none "m" [] envC9 ⟨none, none⟩ "tool" none =
      ⟨.error (.runtime "Not connected to upstream"), 0, 0, 0, none⟩ :=
  claim10_not_connected_guard none none "m" [] envC9 ⟨none, none⟩ "tool" none rfl

end McpProxy
